import Mathlib

/-!
Shallow embedding of the pf-status-relay core (pkg/lacp/pf.go and
pkg/lacp/interface.go): the PF entity (Inspect, Update, StartMonitoring,
StopMonitoring), the per-PF monitoring loop, and the orchestrator's
event-dispatch step.  Netlink is modelled as an explicit environment
(a function from interface index to a fetch result); the VF control sink
as a function from VF id and requested state to a write result.  Log
calls are modelled as an inductive type with one constructor per call
site in the source.  Go panics (nil-pointer dereference, failed type
assertion) are modelled as explicit `panicked` outcomes.
-/

namespace PfStatusRelay

/-- Operational state of a link, mirroring netlink.LinkOperState. -/
inductive LinkOperState where
  | unknown
  | notPresent
  | down
  | lowerLayerDown
  | testing
  | dormant
  | up
  deriving DecidableEq, Repr

/-- netlink.VF_LINK_STATE_AUTO. -/
def VF_LINK_STATE_AUTO : Nat := 0

/-- netlink.VF_LINK_STATE_ENABLE. -/
def VF_LINK_STATE_ENABLE : Nat := 1

/-- netlink.VF_LINK_STATE_DISABLE. -/
def VF_LINK_STATE_DISABLE : Nat := 2

/-- netlink.BOND_MODE_802_3AD. -/
def BOND_MODE_802_3AD : Nat := 4

/-- One entry of link.Attrs().Vfs: VF id and current link-state policy
(a raw numeric value in netlink, hence Nat). -/
structure VfInfo where
  ID : Nat
  LinkState : Nat
  deriving DecidableEq, Repr

/-- Modelled from the spec: the bonding slave status consulted by the
monitoring loop.  The helpers isProtocolUp and IsFastRate of pkg/lacp are
not under src/; per the spec they derive a boolean "LACP synchronized"
protocol state and a negotiated fast/slow rate from the slave record, so
the record is modelled as carrying those two booleans directly. -/
structure BondSlave where
  protocolUp : Bool
  fastRate : Bool
  deriving DecidableEq, Repr

/-- Modelled from the spec: whether the LACP protocol reports synchronized
state for this slave. -/
def isProtocolUp (s : BondSlave) : Bool := s.protocolUp

/-- Modelled from the spec: whether the negotiated LACP rate is fast. -/
def IsFastRate (s : BondSlave) : Bool := s.fastRate

/-- The Slave attribute of a link: in Go a netlink.LinkSlave interface
value, which may be a *netlink.BondSlave or some other concrete type. -/
inductive SlaveInfo where
  | bondSlave (s : BondSlave)
  | otherSlave
  deriving DecidableEq, Repr

/-- The attributes of a link returned by the link attribute source
(link.Attrs() in the Go code). -/
structure LinkAttrs where
  name : String
  index : Int
  operState : LinkOperState
  masterIndex : Int
  vfs : List VfInfo
  slave : Option SlaveInfo
  deriving DecidableEq, Repr

/-- A resolved link: either a *netlink.Bond (carrying its Mode) or a link
of some other concrete type. -/
inductive Link where
  | bond (a : LinkAttrs) (mode : Nat)
  | other (a : LinkAttrs)
  deriving DecidableEq, Repr

/-- link.Attrs(). -/
def Link.attrs : Link → LinkAttrs
  | .bond a _ => a
  | .other a => a

/-- The netlink environment: LinkByIndex as a function from index to a
fetched link or an error message. -/
abbrev Netlink := Int → Except String Link

/-- The VF control sink: LinkSetVfState as a function from VF id and
requested link state to a write result. -/
abbrev Sink := Nat → Nat → Except String Unit

/-- The PF entity (pf.go).  The context, cancel function and rendezvous
channel of the Go struct are runtime handles; their observable effects
(task spawn, cancellation, join) are modelled as fields of the results of
startMonitoring and stopMonitoring below. -/
structure PF where
  Name : String
  Index : Int
  OperState : LinkOperState
  MasterIndex : Int
  Monitoring : Bool
  pollingInterval : Int
  deriving DecidableEq, Repr

/-- Outcome of Inspect: success, a returned error with its message, or a
Go runtime panic (the unchecked type assertion bond.(*netlink.Bond)). -/
inductive InspectResult where
  | ok
  | failed (msg : String)
  | panicked (msg : String)
  deriving DecidableEq, Repr

/-- PF.Inspect (pf.go lines 32-55). -/
def PF.inspect (p : PF) (nl : Netlink) : InspectResult :=
  if p.OperState ≠ LinkOperState.up then
    .failed "link is not up"
  else if p.MasterIndex = 0 then
    .failed "no master interface associated"
  else
    match nl p.MasterIndex with
    | .error e =>
        .failed ("failed to fetch master interface with index "
          ++ toString p.MasterIndex ++ ": " ++ e)
    | .ok (.other _) =>
        .panicked "interface conversion: link is not a bond"
    | .ok (.bond battrs mode) =>
        if mode ≠ BOND_MODE_802_3AD then
          .failed ("bond " ++ battrs.name ++ " does not have mode 802.3ad")
        else
          .ok

/-- PF.Update (pf.go lines 58-80): re-fetch the link by cached index;
surface a resolution error; report false and leave the cache untouched
when the fresh operational state equals the cached one; otherwise
overwrite name, index, operational state and master index and report
true. -/
def PF.update (p : PF) (nl : Netlink) : Except String (Bool × PF) :=
  match nl p.Index with
  | .error e => .error e
  | .ok link =>
      if link.attrs.operState = p.OperState then
        .ok (false, p)
      else
        .ok (true, { p with
          Name := link.attrs.name
          Index := link.attrs.index
          OperState := link.attrs.operState
          MasterIndex := link.attrs.masterIndex })

/-- Severity of a log call. -/
inductive LogLevel where
  | debug
  | info
  | warn
  | error
  deriving DecidableEq, Repr

/-- One constructor per log call site of pf.go relevant to the PF entity
and its monitoring loop. -/
inductive LogEntry where
  | debugAlreadyMonitoring (iface : String)
  | infoStartMonitoring (iface : String)
  | infoStopMonitoring (iface : String)
  | warnFetchFailed (iface : String) (err : String)
  | infoNoVFs (iface : String)
  | errorNotBondSlave (iface : String)
  | errorNoSlave (iface : String)
  | infoLacpUp (iface : String)
  | warnSlowRate (iface : String)
  | infoLacpDown (iface : String)
  | debugVfInfo (id : Nat) (state : Nat) (iface : String)
  | errorSetVfFailed (id : Nat) (iface : String) (err : String)
  | infoVfStateSet (id : Nat) (state : String) (iface : String)
  deriving DecidableEq, Repr

/-- The severity each call site logs at. -/
def LogEntry.level : LogEntry → LogLevel
  | .debugAlreadyMonitoring _ => .debug
  | .infoStartMonitoring _ => .info
  | .infoStopMonitoring _ => .info
  | .warnFetchFailed _ _ => .warn
  | .infoNoVFs _ => .info
  | .errorNotBondSlave _ => .error
  | .errorNoSlave _ => .error
  | .infoLacpUp _ => .info
  | .warnSlowRate _ => .warn
  | .infoLacpDown _ => .info
  | .debugVfInfo _ _ _ => .debug
  | .errorSetVfFailed _ _ _ => .error
  | .infoVfStateSet _ _ _ => .info

/-- Result of StartMonitoring: the PF after the call, whether a new
monitoring task was spawned (the go routine plus fresh context, cancel
function and rendezvous channel), and the logs emitted by the call
itself. -/
structure StartResult where
  pf : PF
  spawned : Bool
  logs : List LogEntry
  deriving Repr

/-- PF.StartMonitoring (pf.go lines 83-101), up to spawning the loop:
if already monitoring, log at debug and change nothing; otherwise log,
set Monitoring, install fresh handles and spawn the monitoring task. -/
def startMonitoring (p : PF) : StartResult :=
  if p.Monitoring then
    { pf := p, spawned := false, logs := [.debugAlreadyMonitoring p.Name] }
  else
    { pf := { p with Monitoring := true }
      spawned := true
      logs := [.infoStartMonitoring p.Name] }

/-- Result of StopMonitoring: the PF after the call, whether the owned
cancellation handle was invoked, whether the call blocked on the
rendezvous channel, and the logs emitted. -/
structure StopResult where
  pf : PF
  cancelled : Bool
  joined : Bool
  logs : List LogEntry
  deriving Repr

/-- PF.StopMonitoring (pf.go lines 187-197): no-op when not monitoring;
otherwise log, cancel, join the loop via the rendezvous channel and clear
Monitoring. -/
def stopMonitoring (p : PF) : StopResult :=
  if p.Monitoring then
    { pf := { p with Monitoring := false }
      cancelled := true
      joined := true
      logs := [.infoStopMonitoring p.Name] }
  else
    { pf := p, cancelled := false, joined := false, logs := [] }

/-- Loop-local state of the monitoring task (pf.go lines 103-105). -/
structure LoopState where
  lacpUp : Bool
  noVFLog : Bool
  firstDownLog : Bool
  deriving DecidableEq, Repr

/-- Initial loop-local state. -/
def initLoopState : LoopState :=
  { lacpUp := false, noVFLog := true, firstDownLog := true }

/-- Per-VF body of the protocol-up branch (pf.go lines 146-155): debug
log; if the VF is in state disable, attempt the write to auto, log an
error entry on failure, and log the "vf link state was set" info entry
unconditionally.  Returns the emitted logs and the attempted writes
(VF id, requested state). -/
def vfActionUp (iface : String) (sink : Sink) (vf : VfInfo) :
    List LogEntry × List (Nat × Nat) :=
  let dbg := LogEntry.debugVfInfo vf.ID vf.LinkState iface
  if vf.LinkState = VF_LINK_STATE_DISABLE then
    match sink vf.ID VF_LINK_STATE_AUTO with
    | .error e =>
        ([dbg, .errorSetVfFailed vf.ID iface e,
          .infoVfStateSet vf.ID "auto" iface],
         [(vf.ID, VF_LINK_STATE_AUTO)])
    | .ok _ =>
        ([dbg, .infoVfStateSet vf.ID "auto" iface],
         [(vf.ID, VF_LINK_STATE_AUTO)])
  else
    ([dbg], [])

/-- Per-VF body of the protocol-down branch (pf.go lines 164-173),
symmetric to vfActionUp: VFs in state auto are written to disable. -/
def vfActionDown (iface : String) (sink : Sink) (vf : VfInfo) :
    List LogEntry × List (Nat × Nat) :=
  let dbg := LogEntry.debugVfInfo vf.ID vf.LinkState iface
  if vf.LinkState = VF_LINK_STATE_AUTO then
    match sink vf.ID VF_LINK_STATE_DISABLE with
    | .error e =>
        ([dbg, .errorSetVfFailed vf.ID iface e,
          .infoVfStateSet vf.ID "disable" iface],
         [(vf.ID, VF_LINK_STATE_DISABLE)])
    | .ok _ =>
        ([dbg, .infoVfStateSet vf.ID "disable" iface],
         [(vf.ID, VF_LINK_STATE_DISABLE)])
  else
    ([dbg], [])

/-- The range-over-vfs loop: apply the per-VF body to each VF in order
and concatenate logs and attempted writes. -/
def vfReconcile (f : VfInfo → List LogEntry × List (Nat × Nat)) :
    List VfInfo → List LogEntry × List (Nat × Nat)
  | [] => ([], [])
  | vf :: rest =>
      let a := f vf
      let r := vfReconcile f rest
      (a.1 ++ r.1, a.2 ++ r.2)

/-- Outcome of one tick of the monitoring loop: the loop-local state
after the tick, the logs emitted, and the VF state writes attempted. -/
structure TickResult where
  state : LoopState
  logs : List LogEntry
  writes : List (Nat × Nat)
  deriving Repr

/-- One tick of the monitoring loop (pf.go lines 108-177).  `fetch` is
the result of LinkByIndex for this tick; `sink` receives the attempted
VF state writes.  Every branch, failures included, returns a TickResult:
the loop body never exits the loop. -/
def tick (iface : String) (st : LoopState) (fetch : Except String Link)
    (sink : Sink) : TickResult :=
  match fetch with
  | .error e => { state := st, logs := [.warnFetchFailed iface e], writes := [] }
  | .ok link =>
      if link.attrs.vfs.isEmpty then
        if st.noVFLog then
          { state := { st with noVFLog := false }
            logs := [.infoNoVFs iface], writes := [] }
        else
          { state := st, logs := [], writes := [] }
      else
        let st1 := { st with noVFLog := true }
        match link.attrs.slave with
        | none =>
            { state := st1, logs := [.errorNoSlave iface], writes := [] }
        | some .otherSlave =>
            { state := st1, logs := [.errorNotBondSlave iface], writes := [] }
        | some (.bondSlave s) =>
            if isProtocolUp s then
              let upLogs :=
                if st1.lacpUp then []
                else
                  .infoLacpUp iface ::
                    (if IsFastRate s then [] else [.warnSlowRate iface])
              let st2 := { st1 with lacpUp := true }
              let acts := vfReconcile (vfActionUp iface sink) link.attrs.vfs
              { state := st2, logs := upLogs ++ acts.1, writes := acts.2 }
            else
              let goDown := st1.lacpUp || st1.firstDownLog
              let downLogs := if goDown then [LogEntry.infoLacpDown iface] else []
              let st2 :=
                if goDown then { st1 with lacpUp := false, firstDownLog := false }
                else st1
              let acts := vfReconcile (vfActionDown iface sink) link.attrs.vfs
              { state := st2, logs := downLogs ++ acts.1, writes := acts.2 }

/-- An event delivered to the monitoring task: a timer tick (with this
tick's fetch result and sink) or cancellation of its context. -/
inductive LoopEvent where
  | tick (fetch : Except String Link) (sink : Sink)
  | cancel

/-- Whether the monitoring task is still running. -/
inductive LoopStatus where
  | running (st : LoopState)
  | terminated

/-- The monitoring task as a step function over LoopEvent: a timer tick
runs the loop body and keeps running; cancellation (the stop.Done case,
pf.go lines 178-180) returns from the go routine. -/
def loopStep (iface : String) : LoopStatus → LoopEvent → LoopStatus
  | .running st, .tick fetch sink => .running (tick iface st fetch sink).state
  | .running _, .cancel => .terminated
  | .terminated, _ => .terminated

/-- The input of one tick: this tick's fetch result and sink. -/
abbrev TickInput := Except String Link × Sink

/-- Run the monitoring loop over a list of tick inputs, accumulating the
emitted logs. -/
def runLoop (iface : String) (st : LoopState) :
    List TickInput → LoopState × List LogEntry
  | [] => (st, [])
  | (fetch, sink) :: rest =>
      let r := tick iface st fetch sink
      let rr := runLoop iface r.state rest
      (rr.1, r.logs ++ rr.2)

/-- Whether a log entry is the "interface has no VFs" info entry. -/
def isNoVFLog : LogEntry → Bool
  | .infoNoVFs _ => true
  | _ => false

/-- Number of "interface has no VFs" info entries in a log. -/
def countNoVFLogs (l : List LogEntry) : Nat := l.countP isNoVFLog

/-- Whether a tick input read the link successfully. -/
def fetchOk : TickInput → Bool
  | (.ok _, _) => true
  | (.error _, _) => false

/-- Whether a tick input read the link successfully and found an empty
VF list. -/
def emptyVfTick : TickInput → Bool
  | (.ok link, _) => link.attrs.vfs.isEmpty
  | (.error _, _) => false

/-- Number of maximal contiguous runs of elements satisfying `P`; the
boolean argument records whether the previous element satisfied `P`. -/
def countRunsAux (P : α → Bool) : Bool → List α → Nat
  | _, [] => 0
  | inRun, x :: xs =>
      if P x then (if inRun then 0 else 1) + countRunsAux P true xs
      else countRunsAux P false xs

/-- Number of maximal contiguous runs of elements satisfying `P`. -/
def countRuns (P : α → Bool) (l : List α) : Nat := countRunsAux P false l

/-- The orchestrator's registry: the map from interface index to PF,
modelled as an association list with unique keys. -/
abbrev Registry := List (Int × PF)

/-- Go map lookup i.PFs[index]: some PF when present, none (the nil
zero value of *PF) when absent. -/
def lookupPF (pfs : Registry) (idx : Int) : Option PF :=
  (pfs.find? (fun e => e.1 = idx)).map Prod.snd

/-- Replace the entry stored under a key. -/
def setPF (pfs : Registry) (idx : Int) (p : PF) : Registry :=
  pfs.map (fun e => if e.1 = idx then (e.1, p) else e)

/-- Outcome of processing one queue notification in the dispatch loop:
the registry after the step, or a Go runtime panic. -/
inductive DispatchResult where
  | ok (pfs : Registry)
  | panicked (msg : String)

/-- One iteration of the dispatch loop (interface.go lines 63-80) on a
received index.  Go map lookup on a missing key yields a nil *PF, and
p.Update() dereferences the nil receiver (p.Index), which panics; this is
modelled by the none branch.  Otherwise: Update; on error, log and take
the next notification; on a material change, re-run Inspect and start or
stop monitoring (an Inspect panic propagates). -/
def dispatchStep (nl : Netlink) (pfs : Registry) (index : Int) : DispatchResult :=
  match lookupPF pfs index with
  | none => .panicked "invalid memory address or nil pointer dereference"
  | some p =>
      match p.update nl with
      | .error _ => .ok pfs
      | .ok (updated, p1) =>
          if updated then
            match p1.inspect nl with
            | .panicked m => .panicked m
            | .failed _ => .ok (setPF pfs index (stopMonitoring p1).pf)
            | .ok => .ok (setPF pfs index (startMonitoring p1).pf)
          else
            .ok (setPF pfs index p1)

/-- The eligibility clause of the claim, in its own words: the master
index resolves to a bond whose mode is 802.3ad. -/
def masterResolvesTo8023adBond (p : PF) (nl : Netlink) : Bool :=
  match nl p.MasterIndex with
  | .ok (.bond _ mode) => mode = BOND_MODE_802_3AD
  | _ => false

/-- Whether an Inspect outcome is a returned error. -/
def InspectResult.isFailed : InspectResult → Bool
  | .failed _ => true
  | _ => false

/-! Concrete fixtures used by witnesses and counterexamples. -/

/-- A PF whose cached state is up and whose master index is 5. -/
def pfUpMaster : PF :=
  { Name := "ens1f0", Index := 3, OperState := .up, MasterIndex := 5,
    Monitoring := false, pollingInterval := 1000 }

/-- A PF whose cached operational state is down. -/
def pfDown : PF :=
  { Name := "ens1f1", Index := 4, OperState := .down, MasterIndex := 5,
    Monitoring := false, pollingInterval := 1000 }

/-- A PF that is not monitoring. -/
def pfFresh : PF :=
  { Name := "ens2f0", Index := 12, OperState := .up, MasterIndex := 9,
    Monitoring := false, pollingInterval := 1000 }

/-- Attributes of a link named br0 at index 5. -/
def attrsBr0 : LinkAttrs :=
  { name := "br0", index := 5, operState := .up, masterIndex := 0,
    vfs := [], slave := none }

/-- A netlink environment in which index 5 resolves to a link that is
not a bond (a bridge, say) and every other index fails to resolve. -/
def nlNonBondMaster : Netlink :=
  fun i => if i = 5 then .ok (.other attrsBr0) else .error "Link not found"

/-! Theorems for the claims. -/

/-- C3 (amended): Inspect succeeds iff the cached operational state is
up, the master index is nonzero and the master resolves to a bond in
mode 802.3ad; each violated clause yields the error identifying it
(link not up / no master / master fetch failure / wrong bond mode) —
except that when the master resolves to a link that is not a bond,
Inspect panics instead of returning an error. -/
theorem pf_C3_inspect_eligibility (p : PF) (nl : Netlink) :
    (p.inspect nl = .ok ↔
      (p.OperState = LinkOperState.up ∧ p.MasterIndex ≠ 0 ∧
        masterResolvesTo8023adBond p nl = true))
    ∧ (p.OperState ≠ LinkOperState.up → p.inspect nl = .failed "link is not up")
    ∧ (p.OperState = LinkOperState.up → p.MasterIndex = 0 →
        p.inspect nl = .failed "no master interface associated")
    ∧ (∀ e, p.OperState = LinkOperState.up → p.MasterIndex ≠ 0 →
        nl p.MasterIndex = .error e →
        p.inspect nl = .failed ("failed to fetch master interface with index "
          ++ toString p.MasterIndex ++ ": " ++ e))
    ∧ (∀ a m, p.OperState = LinkOperState.up → p.MasterIndex ≠ 0 →
        nl p.MasterIndex = .ok (.bond a m) → m ≠ BOND_MODE_802_3AD →
        p.inspect nl = .failed ("bond " ++ a.name ++ " does not have mode 802.3ad"))
    ∧ (∀ a, p.OperState = LinkOperState.up → p.MasterIndex ≠ 0 →
        nl p.MasterIndex = .ok (.other a) →
        p.inspect nl = .panicked "interface conversion: link is not a bond") := by
  refine ⟨?_, ?_, ?_, ?_, ?_, ?_⟩
  · by_cases hs : p.OperState = LinkOperState.up
    · by_cases hm : p.MasterIndex = 0
      · simp [PF.inspect, masterResolvesTo8023adBond, hs, hm]
      · cases hnl : nl p.MasterIndex with
        | error e => simp [PF.inspect, masterResolvesTo8023adBond, hs, hm, hnl]
        | ok l =>
            cases l with
            | bond a m =>
                by_cases hmode : m = BOND_MODE_802_3AD <;>
                  simp [PF.inspect, masterResolvesTo8023adBond, hs, hm, hnl, hmode]
            | other a => simp [PF.inspect, masterResolvesTo8023adBond, hs, hm, hnl]
    · simp [PF.inspect, masterResolvesTo8023adBond, hs]
  · intro h; simp [PF.inspect, h]
  · intro h1 h2; simp [PF.inspect, h1, h2]
  · intro e h1 h2 h3; simp [PF.inspect, h1, h2, h3]
  · intro a m h1 h2 h3 h4; simp [PF.inspect, h1, h2, h3, h4]
  · intro a h1 h2 h3; simp [PF.inspect, h1, h2, h3]

/-- C3 witness: on a PF whose cached state is down, Inspect returns the
"link is not up" error. -/
theorem pf_C3_inspect_eligibility_witness :
    PF.inspect pfDown nlNonBondMaster = .failed "link is not up" :=
  (pf_C3_inspect_eligibility pfDown nlNonBondMaster).2.1 (by decide)

/-- C3 counterexample: the PF is up with a nonzero master, the master
resolves but not to an 802.3ad bond (the eligibility clause is
violated), yet Inspect does not return any error — it panics — refuting
"when any clause is violated, Inspect returns an error whose message
identifies which clause failed". -/
theorem pf_C3_counterexample :
    masterResolvesTo8023adBond pfUpMaster nlNonBondMaster = false
    ∧ PF.inspect pfUpMaster nlNonBondMaster
        = .panicked "interface conversion: link is not a bond"
    ∧ (PF.inspect pfUpMaster nlNonBondMaster).isFailed = false :=
  ⟨rfl, rfl, rfl⟩

/-- C9: when the cached operational state is up, the master index is
nonzero, and the master index resolves to a link that is not a bond, the
unchecked type assertion in Inspect panics instead of returning the
descriptive non-fatal error promised for every violation. -/
theorem pf_C9_inspect_panics_on_non_bond_master (p : PF) (nl : Netlink)
    (a : LinkAttrs) (hup : p.OperState = LinkOperState.up)
    (hm : p.MasterIndex ≠ 0) (hres : nl p.MasterIndex = .ok (.other a)) :
    p.inspect nl = .panicked "interface conversion: link is not a bond" := by
  simp [PF.inspect, hup, hm, hres]

/-- C9 witness: a concrete up PF whose master index resolves to a
non-bond link makes Inspect panic. -/
theorem pf_C9_witness :
    PF.inspect pfUpMaster nlNonBondMaster
      = .panicked "interface conversion: link is not a bond" :=
  pf_C9_inspect_panics_on_non_bond_master pfUpMaster nlNonBondMaster attrsBr0
    rfl (by decide) rfl

/-- C4: when the PF's index resolves, Update returns false and leaves the
cached PF unchanged whenever the freshly read operational state equals
the cached one (whatever the other attributes are), and otherwise returns
true and overwrites the cached name, index, operational state and master
index with the freshly read values. -/
theorem pf_C4_update_change_detection (p : PF) (nl : Netlink) (link : Link)
    (hres : nl p.Index = .ok link) :
    (link.attrs.operState = p.OperState → p.update nl = .ok (false, p))
    ∧ (link.attrs.operState ≠ p.OperState →
        p.update nl = .ok (true, { p with
          Name := link.attrs.name
          Index := link.attrs.index
          OperState := link.attrs.operState
          MasterIndex := link.attrs.masterIndex })) := by
  constructor <;> intro h <;> simp [PF.update, hres, h]

/-- A PF cached as up at index 7. -/
def pfEth0 : PF :=
  { Name := "eth0", Index := 7, OperState := .up, MasterIndex := 9,
    Monitoring := true, pollingInterval := 1000 }

/-- A link at index 7 whose name and master differ from pfEth0's cache
but whose operational state is still up. -/
def linkRenamed : Link :=
  .other { name := "eth0new", index := 7, operState := .up,
           masterIndex := 11, vfs := [], slave := none }

/-- A netlink environment resolving index 7 to linkRenamed. -/
def nlRenamed : Netlink :=
  fun i => if i = 7 then .ok linkRenamed else .error "Link not found"

/-- C4 witness: a fresh read whose name and master index differ but whose
operational state matches the cache makes Update report false and keep
the cache untouched. -/
theorem pf_C4_update_change_detection_witness :
    PF.update pfEth0 nlRenamed = .ok (false, pfEth0) :=
  (pf_C4_update_change_detection pfEth0 nlRenamed linkRenamed rfl).1 rfl

/-- C6: starting monitoring on a non-monitoring PF spawns one task and
sets Monitoring; a second StartMonitoring without an intervening stop
observes Monitoring = true, spawns nothing, changes no state, and logs
only at debug level — so exactly one task was spawned in total. -/
theorem pf_C6_start_monitoring_idempotent (p : PF) (h : p.Monitoring = false) :
    (startMonitoring p).spawned = true
    ∧ (startMonitoring p).pf.Monitoring = true
    ∧ startMonitoring (startMonitoring p).pf
        = { pf := (startMonitoring p).pf, spawned := false,
            logs := [.debugAlreadyMonitoring (startMonitoring p).pf.Name] }
    ∧ (∀ e ∈ (startMonitoring (startMonitoring p).pf).logs,
        e.level = LogLevel.debug)
    ∧ ((if (startMonitoring p).spawned then 1 else 0)
        + (if (startMonitoring (startMonitoring p).pf).spawned then 1 else 0)
        = 1) := by
  simp [startMonitoring, h, LogEntry.level]

/-- C6 witness: on a concrete non-monitoring PF, the first call spawns
and the total number of tasks spawned by two consecutive calls is one. -/
theorem pf_C6_start_monitoring_idempotent_witness :
    (startMonitoring pfFresh).spawned = true
    ∧ ((if (startMonitoring pfFresh).spawned then 1 else 0)
        + (if (startMonitoring (startMonitoring pfFresh).pf).spawned then 1 else 0)
        = 1) :=
  ⟨(pf_C6_start_monitoring_idempotent pfFresh rfl).1,
   (pf_C6_start_monitoring_idempotent pfFresh rfl).2.2.2.2⟩

/-- C7: StopMonitoring on a PF whose Monitoring flag is false returns at
once with the PF unchanged, without invoking the cancellation handle,
without blocking on the rendezvous channel, and without logging. -/
theorem pf_C7_stop_monitoring_noop (p : PF) (h : p.Monitoring = false) :
    stopMonitoring p
      = { pf := p, cancelled := false, joined := false, logs := [] } := by
  simp [stopMonitoring, h]

/-- C7 witness: stopping a concrete non-monitoring PF is a no-op. -/
theorem pf_C7_stop_monitoring_noop_witness :
    stopMonitoring pfFresh
      = { pf := pfFresh, cancelled := false, joined := false, logs := [] } :=
  pf_C7_stop_monitoring_noop pfFresh rfl

/-- The writes attempted by the protocol-up VF loop are exactly one
auto-request per VF currently in state disable, in order. -/
theorem vfReconcile_up_writes (iface : String) (sink : Sink)
    (vfs : List VfInfo) :
    (vfReconcile (vfActionUp iface sink) vfs).2
      = (vfs.filter (fun vf => vf.LinkState == VF_LINK_STATE_DISABLE)).map
          (fun vf => (vf.ID, VF_LINK_STATE_AUTO)) := by
  induction vfs with
  | nil => rfl
  | cons vf rest ih =>
      by_cases h : vf.LinkState = VF_LINK_STATE_DISABLE
      · cases hs : sink vf.ID VF_LINK_STATE_AUTO <;>
          simp [vfReconcile, vfActionUp, h, hs, ih, List.filter_cons]
      · simp [vfReconcile, vfActionUp, h, ih, List.filter_cons]

/-- The writes attempted by the protocol-down VF loop are exactly one
disable-request per VF currently in state auto, in order. -/
theorem vfReconcile_down_writes (iface : String) (sink : Sink)
    (vfs : List VfInfo) :
    (vfReconcile (vfActionDown iface sink) vfs).2
      = (vfs.filter (fun vf => vf.LinkState == VF_LINK_STATE_AUTO)).map
          (fun vf => (vf.ID, VF_LINK_STATE_DISABLE)) := by
  induction vfs with
  | nil => rfl
  | cons vf rest ih =>
      by_cases h : vf.LinkState = VF_LINK_STATE_AUTO
      · cases hs : sink vf.ID VF_LINK_STATE_DISABLE <;>
          simp [vfReconcile, vfActionDown, h, hs, ih, List.filter_cons]
      · simp [vfReconcile, vfActionDown, h, ih, List.filter_cons]

/-- C1: on a tick whose fetched link carries a bonding-type slave record,
if the protocol is up the attempted VF writes are exactly a transition to
auto for every VF whose state is disable (VFs in any other state are not
written); if the protocol is down they are exactly a transition to
disable for every VF whose state is auto. -/
theorem pf_C1_reconciliation (iface : String) (st : LoopState) (sink : Sink)
    (link : Link) (s : BondSlave)
    (hslave : link.attrs.slave = some (.bondSlave s)) :
    (isProtocolUp s = true →
      (tick iface st (.ok link) sink).writes
        = (link.attrs.vfs.filter
            (fun vf => vf.LinkState == VF_LINK_STATE_DISABLE)).map
            (fun vf => (vf.ID, VF_LINK_STATE_AUTO)))
    ∧ (isProtocolUp s = false →
      (tick iface st (.ok link) sink).writes
        = (link.attrs.vfs.filter
            (fun vf => vf.LinkState == VF_LINK_STATE_AUTO)).map
            (fun vf => (vf.ID, VF_LINK_STATE_DISABLE))) := by
  cases hemp : link.attrs.vfs.isEmpty
  · constructor <;> intro h <;>
      simp [tick, hemp, hslave, h, vfReconcile_up_writes, vfReconcile_down_writes]
  · have hnil : link.attrs.vfs = [] := by
      simpa using hemp
    constructor <;> intro h <;>
      cases hflag : st.noVFLog <;>
        simp [tick, hemp, hnil, hslave, h, hflag]

/-- A bonding slave record reporting LACP synchronized, fast rate. -/
def slaveUp : BondSlave := { protocolUp := true, fastRate := true }

/-- Three VFs: one disabled, one auto, one enabled. -/
def vfsMixed : List VfInfo :=
  [{ ID := 0, LinkState := VF_LINK_STATE_DISABLE },
   { ID := 1, LinkState := VF_LINK_STATE_AUTO },
   { ID := 2, LinkState := VF_LINK_STATE_ENABLE }]

/-- A link with the three mixed VFs and a synchronized bonding slave. -/
def linkVfs : Link :=
  .other { name := "ens1f0", index := 3, operState := .up, masterIndex := 5,
           vfs := vfsMixed, slave := some (.bondSlave slaveUp) }

/-- A VF control sink whose writes all succeed. -/
def sinkOk : Sink := fun _ _ => .ok ()

/-- C1 witness: on the mixed VF list with the protocol up, exactly the
disabled VF (id 0) is requested to move to auto. -/
theorem pf_C1_reconciliation_witness :
    (tick "ens1f0" initLoopState (.ok linkVfs) sinkOk).writes
      = [(0, VF_LINK_STATE_AUTO)] := by
  rw [(pf_C1_reconciliation "ens1f0" initLoopState sinkOk linkVfs slaveUp
    rfl).1 rfl]
  rfl

/-- A log entry of the per-VF body belongs to the logs of the whole
range-over-vfs loop. -/
theorem vfReconcile_logs_mem
    (f : VfInfo → List LogEntry × List (Nat × Nat)) (vfs : List VfInfo)
    (vf : VfInfo) (x : LogEntry) (hvf : vf ∈ vfs) (hx : x ∈ (f vf).1) :
    x ∈ (vfReconcile f vfs).1 := by
  induction vfs with
  | nil => cases hvf
  | cons v rest ih =>
      simp only [vfReconcile, List.mem_append]
      rcases List.mem_cons.mp hvf with h | h
      · subst h; exact Or.inl hx
      · exact Or.inr (ih h)

/-- C10: whenever the monitoring loop attempts a VF transition and the
write through the VF control sink fails, the tick's logs contain both the
"failed to set vf link state" error entry and the success-worded
"vf link state was set" info entry for that VF, in both the protocol-up
and the protocol-down branch. -/
theorem pf_C10_set_log_unconditional (iface : String) (st : LoopState)
    (sink : Sink) (link : Link) (s : BondSlave) (vf : VfInfo) (e : String)
    (hslave : link.attrs.slave = some (.bondSlave s))
    (hvf : vf ∈ link.attrs.vfs) :
    (isProtocolUp s = true → vf.LinkState = VF_LINK_STATE_DISABLE →
      sink vf.ID VF_LINK_STATE_AUTO = .error e →
      LogEntry.errorSetVfFailed vf.ID iface e
          ∈ (tick iface st (.ok link) sink).logs
      ∧ LogEntry.infoVfStateSet vf.ID "auto" iface
          ∈ (tick iface st (.ok link) sink).logs)
    ∧ (isProtocolUp s = false → vf.LinkState = VF_LINK_STATE_AUTO →
      sink vf.ID VF_LINK_STATE_DISABLE = .error e →
      LogEntry.errorSetVfFailed vf.ID iface e
          ∈ (tick iface st (.ok link) sink).logs
      ∧ LogEntry.infoVfStateSet vf.ID "disable" iface
          ∈ (tick iface st (.ok link) sink).logs) := by
  have hemp : link.attrs.vfs.isEmpty = false := by
    cases h : link.attrs.vfs.isEmpty
    · rfl
    · rw [List.isEmpty_iff] at h
      rw [h] at hvf
      cases hvf
  constructor <;> intro hp hstate hsink <;> constructor <;>
    · simp only [tick, hemp, hslave, hp, Bool.false_eq_true, if_false, if_true,
        List.mem_append]
      exact Or.inr (vfReconcile_logs_mem _ _ vf _ hvf
        (by simp [vfActionUp, vfActionDown, hstate, hsink]))

/-- A VF control sink whose writes all fail. -/
def sinkFail : Sink := fun _ _ => .error "operation not permitted"

/-- C10 witness: with a failing sink, the tick on the mixed VF list logs
both the error entry and the success-worded entry for VF 0. -/
theorem pf_C10_set_log_unconditional_witness :
    LogEntry.errorSetVfFailed 0 "ens1f0" "operation not permitted"
        ∈ (tick "ens1f0" initLoopState (.ok linkVfs) sinkFail).logs
    ∧ LogEntry.infoVfStateSet 0 "auto" "ens1f0"
        ∈ (tick "ens1f0" initLoopState (.ok linkVfs) sinkFail).logs :=
  (pf_C10_set_log_unconditional "ens1f0" initLoopState sinkFail linkVfs
    slaveUp { ID := 0, LinkState := VF_LINK_STATE_DISABLE }
    "operation not permitted" rfl (by decide)).1 rfl rfl rfl

/-- C5: from a running monitoring loop, a timer tick always leaves the
loop running with the state the loop body computed — whatever failures
the tick met (fetch error, empty VF list, absent or wrongly typed slave
record, VF write failures) — and only a cancellation event terminates
it; moreover an attribute-read failure is absorbed with exactly the
warning log. -/
theorem pf_C5_only_cancellation_terminates (iface : String) (st : LoopState)
    (e : LoopEvent) :
    (loopStep iface (.running st) e
      = match e with
        | .tick fetch sink => .running (tick iface st fetch sink).state
        | .cancel => .terminated)
    ∧ (∀ err sink, (tick iface st (.error err) sink).logs
        = [.warnFetchFailed iface err])
    ∧ (∀ sink link, link.attrs.vfs.isEmpty = false →
        link.attrs.slave = none →
        (tick iface st (.ok link) sink).logs = [.errorNoSlave iface])
    ∧ (∀ sink link, link.attrs.vfs.isEmpty = false →
        link.attrs.slave = some .otherSlave →
        (tick iface st (.ok link) sink).logs = [.errorNotBondSlave iface]) := by
  refine ⟨?_, ?_, ?_, ?_⟩
  · cases e <;> rfl
  · intro err sink; rfl
  · intro sink link hemp hs; simp [tick, hemp, hs]
  · intro sink link hemp hs; simp [tick, hemp, hs]

/-- A link whose VF list is non-empty but whose slave attribute is a
non-bonding slave type. -/
def linkWrongSlave : Link :=
  .other { name := "ens4f0", index := 21, operState := .up, masterIndex := 5,
           vfs := vfsMixed, slave := some .otherSlave }

/-- C5 witness: a concrete wrongly typed slave record is absorbed with
a single error log, and the tick leaves the loop running. -/
theorem pf_C5_only_cancellation_terminates_witness :
    loopStep "ens4f0" (.running initLoopState)
        (.tick (.ok linkWrongSlave) sinkOk)
      = .running (tick "ens4f0" initLoopState (.ok linkWrongSlave) sinkOk).state
    ∧ (tick "ens4f0" initLoopState (.ok linkWrongSlave) sinkOk).logs
        = [.errorNotBondSlave "ens4f0"] :=
  ⟨(pf_C5_only_cancellation_terminates "ens4f0" initLoopState
      (.tick (.ok linkWrongSlave) sinkOk)).1,
   (pf_C5_only_cancellation_terminates "ens4f0" initLoopState
      (.tick (.ok linkWrongSlave) sinkOk)).2.2.2 sinkOk linkWrongSlave
      rfl rfl⟩

/-- A netlink environment in which no index resolves. -/
def nlNever : Netlink := fun _ => .error "Link not found"

/-- C2: the dispatch loop, given a notification for index 2 while the
registry holds only index 1, looks up a nil PF and dereferences it in
Update — a runtime panic, not the silent ignore the claim states. -/
theorem pf_C2_unknown_index_panics :
    dispatchStep nlNever [((1 : Int), pfUpMaster)] 2
      = .panicked "invalid memory address or nil pointer dereference" := rfl

/-- The protocol-up VF loop emits no "interface has no VFs" entry. -/
theorem vfReconcile_up_no_noVF (iface : String) (sink : Sink)
    (vfs : List VfInfo) :
    countNoVFLogs (vfReconcile (vfActionUp iface sink) vfs).1 = 0 := by
  induction vfs with
  | nil => rfl
  | cons vf rest ih =>
      by_cases h : vf.LinkState = VF_LINK_STATE_DISABLE
      · cases hs : sink vf.ID VF_LINK_STATE_AUTO <;>
          simp [vfReconcile, vfActionUp, h, hs, countNoVFLogs,
            List.countP_append, List.countP_cons, isNoVFLog] <;>
          simpa [countNoVFLogs] using ih
      · simp [vfReconcile, vfActionUp, h, countNoVFLogs,
          List.countP_append, List.countP_cons, isNoVFLog]
        simpa [countNoVFLogs] using ih

/-- The protocol-down VF loop emits no "interface has no VFs" entry. -/
theorem vfReconcile_down_no_noVF (iface : String) (sink : Sink)
    (vfs : List VfInfo) :
    countNoVFLogs (vfReconcile (vfActionDown iface sink) vfs).1 = 0 := by
  induction vfs with
  | nil => rfl
  | cons vf rest ih =>
      by_cases h : vf.LinkState = VF_LINK_STATE_AUTO
      · cases hs : sink vf.ID VF_LINK_STATE_DISABLE <;>
          simp [vfReconcile, vfActionDown, h, hs, countNoVFLogs,
            List.countP_append, List.countP_cons, isNoVFLog] <;>
          simpa [countNoVFLogs] using ih
      · simp [vfReconcile, vfActionDown, h, countNoVFLogs,
          List.countP_append, List.countP_cons, isNoVFLog]
        simpa [countNoVFLogs] using ih

/-- A tick that observes a non-empty VF list leaves the debounce flag
set, whatever branch it then takes. -/
theorem tick_nonEmpty_noVFLog (iface : String) (st : LoopState) (sink : Sink)
    (link : Link) (hemp : link.attrs.vfs.isEmpty = false) :
    (tick iface st (.ok link) sink).state.noVFLog = true := by
  cases hs : link.attrs.slave with
  | none => simp [tick, hemp, hs]
  | some sl =>
      cases sl with
      | otherSlave => simp [tick, hemp, hs]
      | bondSlave s =>
          cases hp : isProtocolUp s
          · cases hd : st.lacpUp || st.firstDownLog <;>
              simp [tick, hemp, hs, hp, hd]
          · simp [tick, hemp, hs, hp]

/-- A tick that observes a non-empty VF list emits no "interface has no
VFs" entry, whatever branch it then takes. -/
theorem tick_nonEmpty_no_noVF (iface : String) (st : LoopState) (sink : Sink)
    (link : Link) (hemp : link.attrs.vfs.isEmpty = false) :
    countNoVFLogs (tick iface st (.ok link) sink).logs = 0 := by
  cases hs : link.attrs.slave with
  | none => simp [tick, hemp, hs, countNoVFLogs, List.countP_cons, isNoVFLog]
  | some sl =>
      cases sl with
      | otherSlave =>
          simp [tick, hemp, hs, countNoVFLogs, List.countP_cons, isNoVFLog]
      | bondSlave s =>
          cases hp : isProtocolUp s
          · cases hd : st.lacpUp || st.firstDownLog <;>
              simp [tick, hemp, hs, hp, hd, countNoVFLogs, List.countP_append,
                List.countP_cons, isNoVFLog] <;>
              simpa [countNoVFLogs] using vfReconcile_down_no_noVF iface sink
                link.attrs.vfs
          · cases hu : st.lacpUp <;> cases hr : IsFastRate s <;>
              simp [tick, hemp, hs, hp, hu, hr, countNoVFLogs,
                List.countP_append, List.countP_cons, isNoVFLog] <;>
              simpa [countNoVFLogs] using vfReconcile_up_no_noVF iface sink
                link.attrs.vfs

/-- Over any run of the monitoring loop, the number of "interface has no
VFs" entries equals the number of maximal contiguous runs of
empty-VF-list observations among the ticks whose fetch succeeded, the
initial run-state being determined by the debounce flag. -/
theorem runLoop_noVF_count (iface : String) (trace : List TickInput)
    (st : LoopState) :
    countNoVFLogs (runLoop iface st trace).2
      = countRunsAux emptyVfTick (!st.noVFLog) (trace.filter fetchOk) := by
  induction trace generalizing st with
  | nil => rfl
  | cons t rest ih =>
      obtain ⟨fetch, sink⟩ := t
      cases fetch with
      | error e =>
          simpa [runLoop, tick, countNoVFLogs, List.countP_cons, isNoVFLog,
            fetchOk, List.filter_cons] using ih st
      | ok link =>
          cases hemp : link.attrs.vfs.isEmpty
          · have h1 := tick_nonEmpty_noVFLog iface st sink link hemp
            have h2 : List.countP isNoVFLog
                (tick iface st (.ok link) sink).logs = 0 :=
              tick_nonEmpty_no_noVF iface st sink link hemp
            have h3 := ih (tick iface st (.ok link) sink).state
            rw [h1] at h3
            simpa [runLoop, countNoVFLogs, List.countP_append, fetchOk,
              emptyVfTick, hemp, List.filter_cons, countRunsAux, h2] using h3
          · cases hflag : st.noVFLog
            · simpa [runLoop, tick, hemp, hflag, countNoVFLogs,
                List.countP_cons, isNoVFLog, fetchOk, emptyVfTick,
                List.filter_cons, countRunsAux] using ih st
            · have h3 := ih { st with noVFLog := false }
              simpa [runLoop, tick, hemp, hflag, countNoVFLogs,
                List.countP_cons, isNoVFLog, fetchOk, emptyVfTick,
                List.filter_cons, countRunsAux, Nat.add_comm] using h3

/-- A link at index 20 with no VFs but a synchronized bonding slave. -/
def linkNoVfs : Link :=
  .other { name := "ens3f0", index := 20, operState := .up, masterIndex := 5,
           vfs := [], slave := some (.bondSlave slaveUp) }

/-- A trace of three ticks: a successful read finding no VFs, a failed
attribute read, and another successful read finding no VFs. -/
def traceEmptyErrEmpty : List TickInput :=
  [(.ok linkNoVfs, sinkOk), (.error "device or resource busy", sinkOk),
   (.ok linkNoVfs, sinkOk)]

/-- C8 counterexample: on the empty / read-failure / empty trace there
are two contiguous runs of ticks that successfully read attributes and
find an empty VF list, yet the "no VFs" log is emitted once, not twice —
a read-failure tick does not reset the debounce flag. -/
theorem pf_C8_counterexample :
    countNoVFLogs (runLoop "ens3f0" initLoopState traceEmptyErrEmpty).2 = 1
    ∧ countRuns emptyVfTick traceEmptyErrEmpty = 2
    ∧ countNoVFLogs (runLoop "ens3f0" initLoopState traceEmptyErrEmpty).2
        ≠ countRuns emptyVfTick traceEmptyErrEmpty := by
  refine ⟨rfl, rfl, ?_⟩
  intro h
  rw [show countNoVFLogs
        (runLoop "ens3f0" initLoopState traceEmptyErrEmpty).2 = 1 from rfl,
    show countRuns emptyVfTick traceEmptyErrEmpty = 2 from rfl] at h
  exact absurd h (by decide)

/-- C8 (amended): within one monitoring task started in the initial loop
state, the "no VFs" log is emitted exactly once per maximal contiguous
run of empty-VF observations among the ticks whose attribute read
succeeded (read-failure ticks neither emit the log nor end a run), and
the debounce flag is reset as soon as a tick observes a non-empty VF
list. -/
theorem pf_C8_debounce (iface : String) (trace : List TickInput)
    (st : LoopState) (sink : Sink) (link : Link) :
    countNoVFLogs (runLoop iface initLoopState trace).2
      = countRuns emptyVfTick (trace.filter fetchOk)
    ∧ (link.attrs.vfs.isEmpty = false →
        (tick iface st (.ok link) sink).state.noVFLog = true) := by
  constructor
  · simpa [countRuns, initLoopState] using
      runLoop_noVF_count iface trace initLoopState
  · intro hemp
    exact tick_nonEmpty_noVFLog iface st sink link hemp

/-- C8 witness: on the concrete empty / read-failure / empty trace the
log count equals the number of runs among successfully read ticks (one),
and a tick observing the mixed VF list sets the debounce flag. -/
theorem pf_C8_debounce_witness :
    countNoVFLogs (runLoop "ens3f0" initLoopState traceEmptyErrEmpty).2
      = countRuns emptyVfTick (traceEmptyErrEmpty.filter fetchOk)
    ∧ (tick "ens3f0" initLoopState (.ok linkVfs) sinkOk).state.noVFLog
        = true :=
  ⟨(pf_C8_debounce "ens3f0" traceEmptyErrEmpty initLoopState sinkOk
      linkVfs).1,
   (pf_C8_debounce "ens3f0" traceEmptyErrEmpty initLoopState sinkOk
      linkVfs).2 rfl⟩

end PfStatusRelay
